import Mathlib

/-!
Verification of the TransportApp earnings / services / trips business logic.

The source is a React single-page application; the three screens
(`EarningsScreen`, `ServicesScreen`, `TripsScreen`) hold all of the
business logic.  This file shallowly embeds that logic:

* JavaScript numbers are modelled as exact rationals (`ℚ`); where the
  code can produce non-finite values (the unguarded division
  `tripPrice / distanceKm`), values are modelled by `JsVal`, rationals
  extended with `inf`, `negInf` and `nan` following IEEE/JS semantics.
* Form fields are strings, as in the component state.  `parseFloatJs`
  and `parseIntJs` model the JavaScript `parseFloat` / `parseInt`
  builtins on the fragment of canonical decimal numerals
  (`-`? digits (`.` digits)?): strings outside that fragment are mapped
  to `none`, which models `NaN`.
* Database effects are modelled as explicit list-of-rows state passing;
  network calls are modelled by passing the response as an argument.
-/

/-- Numeric value of a list of decimal digit characters, most
significant first. -/
def digitsToNat (l : List Char) : ℕ :=
  l.foldl (fun acc c => 10 * acc + (c.toNat - 48)) 0

/-- Split a character list at the first `'.'`: returns the characters
before it and, when a dot is present, the characters after it. -/
def splitDot : List Char → List Char × Option (List Char)
  | [] => ([], none)
  | c :: rest =>
      if c = '.' then ([], some rest)
      else
        let p := splitDot rest
        (c :: p.1, p.2)

/-- Exact value of a decimal numeral with optional sign, integer digits
`ip` and fractional digits `fp`. -/
def decimalValue (neg : Bool) (ip fp : List Char) : ℚ :=
  (if neg then -1 else 1) *
    ((digitsToNat ip : ℚ) + (digitsToNat fp : ℚ) / (10 : ℚ) ^ fp.length)

/-- Model of the JavaScript `parseFloat` builtin restricted to canonical
decimal numerals: an optional leading minus sign, then digits, then
optionally a dot and more digits, with at least one digit in total.
Strings outside this fragment are mapped to `none`, modelling `NaN`.
(The JS builtin also accepts exponents and ignores trailing garbage;
no call site in this code base relies on such inputs.) -/
def parseFloatJs (s : String) : Option ℚ :=
  let cs := s.toList
  let (neg, body) : Bool × List Char := match cs with
    | '-' :: rest => (true, rest)
    | _ => (false, cs)
  match splitDot body with
  | (ip, none) =>
      if ip ≠ [] ∧ ip.all (·.isDigit) then some (decimalValue neg ip [])
      else none
  | (ip, some fp) =>
      if (ip ≠ [] ∨ fp ≠ []) ∧ ip.all (·.isDigit) ∧ fp.all (·.isDigit) then
        some (decimalValue neg ip fp)
      else none

/-- Model of the JavaScript `parseInt` builtin (radix 10) on the same
fragment: an optional minus sign followed by the maximal run of leading
digits; everything after the digits is ignored, so
`parseIntJs "2.5" = some 2`.  No leading digit yields `none` (`NaN`). -/
def parseIntJs (s : String) : Option ℤ :=
  let cs := s.toList
  let (neg, body) : Bool × List Char := match cs with
    | '-' :: rest => (true, rest)
    | _ => (false, cs)
  let ds := body.takeWhile (·.isDigit)
  if ds = [] then none
  else some ((if neg then -1 else 1) * (digitsToNat ds : ℤ))

/-- Model of `parseFloat(x) || 0`: a field that is blank or does not
parse (`NaN`) is taken as `0`.  (JS `||` also sends a parsed `0` to the
literal `0`; on exact rationals this is the identity.) -/
def parseNum (s : String) : ℚ :=
  (parseFloatJs s).getD 0

/-! ## Earnings calculator (`EarningsScreen.calculateValues`) -/

/-- The eight raw string fields of the earnings form
(`EarningsScreen` component state `formData`). -/
structure EarningsForm where
  totalEarnings : String
  tripsCompleted : String
  kilometersDriver : String
  hoursWorked : String
  tips : String
  extras : String
  fuelCost : String
  otherExpenses : String
deriving DecidableEq

/-- The nine derived values of the earnings screen
(`EarningsScreen` component state `calculations`). -/
structure Calculations where
  grossEarnings : ℚ
  grossPerKm : ℚ
  grossPerHour : ℚ
  grossPerTrip : ℚ
  totalExpenses : ℚ
  netEarnings : ℚ
  netPerKm : ℚ
  netPerHour : ℚ
  netPerTrip : ℚ
deriving DecidableEq

/-- Embedding of `calculateValues` (EarningsScreen lines 70–96): every
field is read with `parseFloat(...) || 0`, the three totals are direct
sums/differences, and each rate divides by its denominator only when
the denominator is strictly positive, yielding `0` otherwise. -/
def calculateValues (fd : EarningsForm) : Calculations :=
  let totalEarnings := parseNum fd.totalEarnings
  let tripsCompleted := parseNum fd.tripsCompleted
  let kilometersDriver := parseNum fd.kilometersDriver
  let hoursWorked := parseNum fd.hoursWorked
  let tips := parseNum fd.tips
  let extras := parseNum fd.extras
  let fuelCost := parseNum fd.fuelCost
  let otherExpenses := parseNum fd.otherExpenses
  let grossEarnings := totalEarnings + tips + extras
  let totalExpenses := fuelCost + otherExpenses
  let netEarnings := grossEarnings - totalExpenses
  { grossEarnings := grossEarnings
    grossPerKm := if kilometersDriver > 0 then grossEarnings / kilometersDriver else 0
    grossPerHour := if hoursWorked > 0 then grossEarnings / hoursWorked else 0
    grossPerTrip := if tripsCompleted > 0 then grossEarnings / tripsCompleted else 0
    totalExpenses := totalExpenses
    netEarnings := netEarnings
    netPerKm := if kilometersDriver > 0 then netEarnings / kilometersDriver else 0
    netPerHour := if hoursWorked > 0 then netEarnings / hoursWorked else 0
    netPerTrip := if tripsCompleted > 0 then netEarnings / tripsCompleted else 0 }

/-- The concrete example form of the specification: total 1000,
tips 50, extras blank, fuel 200, other blank, trips 10, km 100,
hours 5. -/
def exampleForm : EarningsForm :=
  { totalEarnings := "1000", tripsCompleted := "10",
    kilometersDriver := "100", hoursWorked := "5",
    tips := "50", extras := "", fuelCost := "200", otherExpenses := "" }

/-! ## Trip profitability (`TripsScreen.calculateProfitability`) -/

/-- JavaScript number values relevant to this code base: an exact
rational, the two infinities, or `NaN`.  Rounding of finite doubles is
not modelled; the infinities and `NaN` are needed because the division
`tripPrice / distanceKm` in `TripsScreen` is unguarded. -/
inductive JsVal where
  | num (q : ℚ)
  | inf
  | negInf
  | nan
deriving DecidableEq

/-- JS subtraction on `JsVal` (IEEE-754 semantics, sign of zero
ignored). -/
def jsSub : JsVal → JsVal → JsVal
  | .nan, _ => .nan
  | _, .nan => .nan
  | .num a, .num b => .num (a - b)
  | .inf, .inf => .nan
  | .inf, _ => .inf
  | .negInf, .negInf => .nan
  | .negInf, _ => .negInf
  | .num _, .inf => .negInf
  | .num _, .negInf => .inf

/-- JS multiplication on `JsVal` (IEEE-754 semantics, sign of zero
ignored). -/
def jsMul : JsVal → JsVal → JsVal
  | .nan, _ => .nan
  | _, .nan => .nan
  | .num a, .num b => .num (a * b)
  | .inf, .inf => .inf
  | .inf, .negInf => .negInf
  | .inf, .num b => if b = 0 then .nan else if 0 < b then .inf else .negInf
  | .negInf, .inf => .negInf
  | .negInf, .negInf => .inf
  | .negInf, .num b => if b = 0 then .nan else if 0 < b then .negInf else .inf
  | .num a, .inf => if a = 0 then .nan else if 0 < a then .inf else .negInf
  | .num a, .negInf => if a = 0 then .nan else if 0 < a then .negInf else .inf

/-- JS division on `JsVal` (IEEE-754 semantics, sign of zero ignored):
a positive finite number divided by zero is `Infinity`. -/
def jsDiv : JsVal → JsVal → JsVal
  | .nan, _ => .nan
  | _, .nan => .nan
  | .num a, .num b =>
      if b = 0 then (if a = 0 then .nan else if 0 < a then .inf else .negInf)
      else .num (a / b)
  | .inf, .num b => if 0 ≤ b then .inf else .negInf
  | .negInf, .num b => if 0 ≤ b then .negInf else .inf
  | .num _, .inf => .num 0
  | .num _, .negInf => .num 0
  | .inf, .inf => .nan
  | .inf, .negInf => .nan
  | .negInf, .inf => .nan
  | .negInf, .negInf => .nan

/-- JS `>=` comparison on `JsVal`: any comparison with `NaN` is false;
`Infinity` is above every non-`NaN` value. -/
def jsGe : JsVal → JsVal → Bool
  | .nan, _ => false
  | _, .nan => false
  | .num a, .num b => decide (b ≤ a)
  | .inf, _ => true
  | _, .inf => false
  | .negInf, .negInf => true
  | .negInf, .num _ => false
  | .num _, .negInf => true

/-- The three profitability tiers of `TripsScreen`
(`rentable` = profitable, `poco_rentable` = marginal,
`no_rentable` = unprofitable). -/
inductive Profitability where
  | rentable
  | poco_rentable
  | no_rentable
deriving DecidableEq

/-- Embedding of the classification chain (TripsScreen lines
1126–1136): `difference >= 10` is profitable, otherwise
`difference >= -10` is marginal, otherwise unprofitable. -/
def classifyDiff (difference : JsVal) : Profitability :=
  if jsGe difference (.num 10) then .rentable
  else if jsGe difference (.num (-10)) then .poco_rentable
  else .no_rentable

/-- The analysis record assembled by `calculateProfitability`
(TripsScreen lines 1139–1144). -/
structure TripAnalysisResult where
  distance : ℚ
  actualPricePerKm : JsVal
  difference : JsVal
  profitability : Profitability
deriving DecidableEq

/-- Embedding of the arithmetic part of `calculateProfitability`
(TripsScreen lines 1120–1144): `distanceKm = route.distance / 1000`,
`actualPricePerKm = tripPrice / distanceKm` (unguarded JS division),
`difference = ((actual − desired) / desired) * 100`, then the tier. -/
def analyzeRoute (tripPrice desiredPricePerKm distanceMeters : ℚ) :
    TripAnalysisResult :=
  let distanceKm := distanceMeters / 1000
  let actualPricePerKm := jsDiv (.num tripPrice) (.num distanceKm)
  let difference :=
    jsMul (jsDiv (jsSub actualPricePerKm (.num desiredPricePerKm))
        (.num desiredPricePerKm)) (.num 100)
  { distance := distanceKm
    actualPricePerKm := actualPricePerKm
    difference := difference
    profitability := classifyDiff difference }

/-- The outcome of the routing lookup, passed to the calculator: the
request failed, or it returned a (possibly empty) list of routes, each
given by its distance in metres. -/
inductive RouteResponse where
  | netFail
  | ok (routes : List ℚ)
deriving DecidableEq

/-- Possible outcomes of one invocation of `calculateProfitability`.
The four error constructors correspond to the four
`showNotification('error', …)` calls (missing coordinates, blank price
field, non-positive/non-numeric price, empty route list, network
failure); only `mkResult` updates the analysis state. -/
inductive TripOutcome where
  | coordsError
  | missingPriceError
  | invalidPriceError
  | noRouteError
  | networkError
  | mkResult (a : TripAnalysisResult)
deriving DecidableEq

/-- Embedding of `calculateProfitability` (TripsScreen lines
1082–1152).  The coordinates are `none` when no suggestion was
selected; the two price fields are the raw form strings; the routing
response is passed as an argument.  Validation happens before the
response is ever inspected, mirroring the early returns before the
`axios.get` call. -/
def calculateProfitability (originCoords destinationCoords : Option (ℚ × ℚ))
    (desiredPricePerKm tripPrice : String) (response : RouteResponse) :
    TripOutcome :=
  if originCoords = none ∨ destinationCoords = none then .coordsError
  else if desiredPricePerKm = "" ∨ tripPrice = "" then .missingPriceError
  else
    match parseFloatJs tripPrice, parseFloatJs desiredPricePerKm with
    | some tp, some dp =>
        if tp ≤ 0 ∨ dp ≤ 0 then .invalidPriceError
        else
          match response with
          | .netFail => .networkError
          | .ok [] => .noRouteError
          | .ok (d :: _) => .mkResult (analyzeRoute tp dp d)
    | _, _ => .invalidPriceError

/-! ## Vehicle services (`ServicesScreen`) -/

/-- Calendar dates as year–month–day triples (the `YYYY-MM-DD` strings
of the code). -/
structure CalDate where
  year : ℕ
  month : ℕ
  day : ℕ
deriving DecidableEq

/-- Gregorian leap-year test. -/
def isLeapYear (y : ℕ) : Bool :=
  (y % 4 == 0 && y % 100 != 0) || y % 400 == 0

/-- JS `Date.setFullYear` keeps month and day; the only date produced
by advancing a valid `YYYY-MM-DD` by whole years that can become
invalid is Feb 29 in a non-leap target year, which JS rolls over to
Mar 1. -/
def setFullYearJs (d : CalDate) (y : ℕ) : CalDate :=
  if d.month = 2 ∧ d.day = 29 ∧ ¬ isLeapYear y then ⟨y, 3, 1⟩
  else ⟨y, d.month, d.day⟩

/-- The two renewal-rule kinds of `SERVICE_TYPES`. -/
inductive ServiceRule where
  | years
  | km
deriving DecidableEq

/-- One entry of the `SERVICE_TYPES` configuration (key, rule kind and
interval; icon/label/colour are presentation only). -/
structure ServiceTypeDef where
  key : String
  rule : ServiceRule
  value : ℕ
deriving DecidableEq

/-- The fixed `SERVICE_TYPES` list (ServicesScreen lines 466–503):
VTV every 2 years, oil change every 10000 km, timing belt every
70000 km, brakes every 40000 km. -/
def SERVICE_TYPES : List ServiceTypeDef :=
  [⟨"vtv", .years, 2⟩, ⟨"oil_change", .km, 10000⟩,
   ⟨"timing_belt", .km, 70000⟩, ⟨"brakes", .km, 40000⟩]

/-- Result of `calculateNextService`: at most one of the two fields is
present; `{}` models the empty object returned for an unknown type. -/
structure NextService where
  next_service_date : Option CalDate := none
  next_service_mileage : Option ℚ := none
deriving DecidableEq

/-- Embedding of `calculateNextService` (ServicesScreen lines 573–586):
look the type up in `SERVICE_TYPES`; unknown type yields `{}`; a
years-rule type yields only a date (current year + interval via
`setFullYear`); a km-rule type yields only `currentMileage + value`. -/
def calculateNextService (serviceType : String) (currentMileage : ℚ)
    (serviceDate : CalDate) : NextService :=
  match SERVICE_TYPES.find? (fun t => t.key == serviceType) with
  | none => {}
  | some s =>
      match s.rule with
      | .years =>
          { next_service_date :=
              some (setFullYearJs serviceDate (serviceDate.year + s.value)) }
      | .km =>
          { next_service_mileage := some (currentMileage + (s.value : ℚ)) }

/-- The two columns of a persisted service record read by
`isServiceDue`; the next due date is modelled by its JS timestamp in
milliseconds, a NULL column by `none`. -/
structure ServiceDueRecord where
  next_service_date : Option ℚ
  next_service_mileage : Option ℚ
deriving DecidableEq

/-- Embedding of `Math.ceil((next.getTime() - today.getTime()) /
(1000*60*60*24))` (ServicesScreen line 704). -/
def daysUntilService (todayMs nextMs : ℚ) : ℤ :=
  ⌈(nextMs - todayMs) / 86400000⌉

/-- Embedding of `isServiceDue` (ServicesScreen lines 698–715): a
record with a next due date is due iff that date is at most 30 days
away; otherwise, when the record has a (truthy, i.e. nonzero) next due
mileage and the mileage input holds a (truthy, i.e. nonempty) reading
`c`, the record is due iff `c ≥ next − 1000`; otherwise it is not due.
`currentMileage = none` models a blank mileage input. -/
def isServiceDue (todayMs : ℚ) (currentMileage : Option ℚ)
    (s : ServiceDueRecord) : Bool :=
  match s.next_service_date with
  | some nd => decide (daysUntilService todayMs nd ≤ 30)
  | none =>
      match s.next_service_mileage, currentMileage with
      | some nm, some c => if nm ≠ 0 then decide (nm - 1000 ≤ c) else false
      | _, _ => false

/-! ## Service records persistence (`ServicesScreen.handleSave`) -/

/-- One row of the `service_records` table. -/
structure ServiceRow where
  id : ℕ
  user_id : String
  service_type : String
  service_date : CalDate
  current_mileage : ℚ
  next_service_date : Option CalDate
  next_service_mileage : Option ℚ
deriving DecidableEq

/-- The column set written by the services `handleSave` for one
selected type (ServicesScreen lines 621–627): user, type, date, the
current mileage, plus the single field of `calculateNextService`. -/
structure ServiceData where
  user_id : String
  service_type : String
  service_date : CalDate
  current_mileage : ℚ
  next : NextService
deriving DecidableEq

/-- The `serviceData` object for one selected type. -/
def serviceDataFor (uid serviceType : String) (mileage : ℚ)
    (date : CalDate) : ServiceData :=
  { user_id := uid, service_type := serviceType, service_date := date,
    current_mileage := mileage,
    next := calculateNextService serviceType mileage date }

/-- Row created by the `insert` branch; the column absent from
`serviceData` stays NULL. -/
def newServiceRow (newId : ℕ) (sd : ServiceData) : ServiceRow :=
  { id := newId, user_id := sd.user_id, service_type := sd.service_type,
    service_date := sd.service_date, current_mileage := sd.current_mileage,
    next_service_date := sd.next.next_service_date,
    next_service_mileage := sd.next.next_service_mileage }

/-- The `update` branch: Supabase `update` writes only the supplied
columns, so a `next_*` column absent from `serviceData` keeps its old
value. -/
def applyServiceData (sd : ServiceData) (r : ServiceRow) : ServiceRow :=
  { r with
    user_id := sd.user_id
    service_type := sd.service_type
    service_date := sd.service_date
    current_mileage := sd.current_mileage
    next_service_date :=
      (match sd.next.next_service_date with
        | some d => some d
        | none => r.next_service_date)
    next_service_mileage :=
      (match sd.next.next_service_mileage with
        | some m => some m
        | none => r.next_service_mileage) }

/-- Largest id present in the table (0 when empty); the store assigns
`maxId + 1` to a fresh insert, modelling a generated primary key. -/
def maxId (db : List ServiceRow) : ℕ :=
  (db.map (·.id)).foldr max 0

/-- Outcome of the existence-select of the services `handleSave`
(ServicesScreen lines 614–619).  The call destructures only
`{ data: existingService }` and discards the `error` field, and a
failed supabase select does not throw — it returns
`{ data: null, error }`.  `ok` models a successful select (data = the
matching rows); `failed` models a failed select (data = null). -/
inductive SelectOutcome where
  | ok
  | failed
deriving DecidableEq

/-- Embedding of one loop iteration of the services `handleSave`
(ServicesScreen lines 610–645): select an existing row by
(user, type) with limit 1; if the check `existingService &&
existingService.length > 0` passes, update that row in place by id,
otherwise insert a new row.  When the select fails, its discarded
error leaves `existingService` null, so the check is falsy and the
insert branch runs unconditionally — even when a matching row
exists. -/
def saveServiceType (db : List ServiceRow) (sd : ServiceData)
    (sel : SelectOutcome) : List ServiceRow :=
  match sel with
  | .failed => db ++ [newServiceRow (maxId db + 1) sd]
  | .ok =>
      match db.find? (fun r =>
          r.user_id == sd.user_id && r.service_type == sd.service_type) with
      | some r =>
          db.map (fun x => if x.id = r.id then applyServiceData sd x else x)
      | none => db ++ [newServiceRow (maxId db + 1) sd]

/-- Invariant: no two rows share the same (user, service_type) pair. -/
def UniquePerUserType (db : List ServiceRow) : Prop :=
  db.Pairwise (fun a b =>
    ¬ (a.user_id = b.user_id ∧ a.service_type = b.service_type))

/-- Invariant: primary keys are pairwise distinct. -/
def NodupIds (db : List ServiceRow) : Prop :=
  (db.map (·.id)).Nodup

/-- The notification shown by the services `handleSave`. -/
inductive SaveNotification where
  | missingFields
  | saveFailed
  | saved
deriving DecidableEq

/-- Observable outcome of one services `handleSave` invocation: the
resulting table, the single notification shown, and whether the form
(mileage input and selection) was cleared. -/
structure ServicesSaveResult where
  db : List ServiceRow
  notif : SaveNotification
  formCleared : Bool
deriving DecidableEq

/-- The `for … of selectedServices` loop (ServicesScreen lines
610–645), with a failure oracle: `failAt = some k` makes the
update/insert write of the `k`-th processed service (0-based) throw
(`if (error) throw error`), which aborts the loop; the table is then
left as the previous iterations wrote it.  Each iteration's
existence-select is modelled as succeeding (a failed select does not
throw — it silently reroutes that iteration to the insert branch, see
`saveServiceType`).  Returns the final table and whether an error was
thrown. -/
def runServiceLoop (uid : String) (m : ℚ) (date : CalDate)
    (failAt : Option ℕ) :
    List ServiceRow → List String → ℕ → List ServiceRow × Bool
  | db, [], _ => (db, false)
  | db, t :: rest, k =>
      if failAt = some k then (db, true)
      else
        runServiceLoop uid m date failAt
          (saveServiceType db (serviceDataFor uid t m date) .ok) rest (k + 1)

/-- Sequential persistence of a list of selected types (the effect of
the loop when no write fails and every select succeeds). -/
def foldSaveServices (uid : String) (m : ℚ) (date : CalDate)
    (db : List ServiceRow) (types : List String) : List ServiceRow :=
  types.foldl (fun d t => saveServiceType d (serviceDataFor uid t m date) .ok) db

/-- Embedding of the services `handleSave` (ServicesScreen lines
596–662): validation first (`!user || !currentMileage ||
selectedServices.length === 0` shows an error and stops), then the
loop; a thrown persistence error is caught once, shows a single error
notification and leaves the form uncleared; only the success path
clears the form.  (A mileage string outside the numeral fragment parses
to `NaN` in JS; it is modelled as 0 here — that changes only the stored
payload numbers, not the row structure or control flow.) -/
def handleSaveServices (db : List ServiceRow) (user : Option String)
    (currentMileage : String) (selectedServices : List String)
    (date : CalDate) (failAt : Option ℕ) : ServicesSaveResult :=
  match user with
  | none => { db := db, notif := .missingFields, formCleared := false }
  | some uid =>
      if currentMileage = "" ∨ selectedServices = [] then
        { db := db, notif := .missingFields, formCleared := false }
      else
        let p := runServiceLoop uid (parseNum currentMileage) date failAt
          db selectedServices 0
        if p.2 then { db := p.1, notif := .saveFailed, formCleared := false }
        else { db := p.1, notif := .saved, formCleared := true }

/-! ## Earnings persistence (`EarningsScreen.handleSave`) -/

/-- One row of the `earnings_records` table as assembled by the
earnings `handleSave` (lines 130–151).  The four raw required inputs
are re-parsed without a `|| 0` default (`none` models `NaN`);
`trips_completed` goes through `parseInt` while every rate was computed
from the `parseFloat` value. -/
structure EarningsRecordRow where
  total_earnings : Option ℚ
  trips_completed : Option ℤ
  kilometers_driven : Option ℚ
  hours_worked : Option ℚ
  tips : ℚ
  extras : ℚ
  fuel_cost : ℚ
  other_expenses : ℚ
  gross_earnings : ℚ
  gross_per_km : ℚ
  gross_per_hour : ℚ
  gross_per_trip : ℚ
  total_expenses : ℚ
  net_earnings : ℚ
  net_per_km : ℚ
  net_per_hour : ℚ
  net_per_trip : ℚ
deriving DecidableEq

/-- Embedding of the earnings `handleSave` (EarningsScreen lines
115–186) up to the insert call: `none` when a required field is blank
(the error notification path — nothing is written); otherwise the row
passed to `insert`, whose nine derived fields come from the
`calculations` state, which the recomputation effect keeps equal to
`calculateValues formData` at save time. -/
def buildEarningsData (fd : EarningsForm) : Option EarningsRecordRow :=
  if fd.totalEarnings = "" ∨ fd.tripsCompleted = "" ∨
      fd.kilometersDriver = "" ∨ fd.hoursWorked = "" then none
  else
    let c := calculateValues fd
    some { total_earnings := parseFloatJs fd.totalEarnings
           trips_completed := parseIntJs fd.tripsCompleted
           kilometers_driven := parseFloatJs fd.kilometersDriver
           hours_worked := parseFloatJs fd.hoursWorked
           tips := parseNum fd.tips
           extras := parseNum fd.extras
           fuel_cost := parseNum fd.fuelCost
           other_expenses := parseNum fd.otherExpenses
           gross_earnings := c.grossEarnings
           gross_per_km := c.grossPerKm
           gross_per_hour := c.grossPerHour
           gross_per_trip := c.grossPerTrip
           total_expenses := c.totalExpenses
           net_earnings := c.netEarnings
           net_per_km := c.netPerKm
           net_per_hour := c.netPerHour
           net_per_trip := c.netPerTrip }

/-- A form whose trips input is the integer numeral "2". -/
def integerTripsForm : EarningsForm :=
  ⟨"10", "2", "1", "1", "", "", "", ""⟩

/-- The row persisted for `integerTripsForm`. -/
def integerTripsRow : EarningsRecordRow :=
  { total_earnings := some 10, trips_completed := some 2,
    kilometers_driven := some 1, hours_worked := some 1,
    tips := 0, extras := 0, fuel_cost := 0, other_expenses := 0,
    gross_earnings := 10, gross_per_km := 10, gross_per_hour := 10,
    gross_per_trip := 5, total_expenses := 0, net_earnings := 10,
    net_per_km := 10, net_per_hour := 10, net_per_trip := 5 }

/-! ## Theorems -/

theorem parseNum_blank : parseNum "" = 0 := rfl

theorem parseNum_1 : parseNum "1" = 1 := by
  rw [show parseNum "1" = decimalValue false ['1'] [] from rfl, decimalValue,
    show digitsToNat ['1'] = 1 from by decide]
  norm_num [digitsToNat]

theorem parseNum_5 : parseNum "5" = 5 := by
  rw [show parseNum "5" = decimalValue false ['5'] [] from rfl, decimalValue,
    show digitsToNat ['5'] = 5 from by decide]
  norm_num [digitsToNat]

theorem parseNum_10 : parseNum "10" = 10 := by
  rw [show parseNum "10" = decimalValue false ['1', '0'] [] from rfl, decimalValue,
    show digitsToNat ['1', '0'] = 10 from by decide]
  norm_num [digitsToNat]

theorem parseNum_50 : parseNum "50" = 50 := by
  rw [show parseNum "50" = decimalValue false ['5', '0'] [] from rfl, decimalValue,
    show digitsToNat ['5', '0'] = 50 from by decide]
  norm_num [digitsToNat]

theorem parseNum_100 : parseNum "100" = 100 := by
  rw [show parseNum "100" = decimalValue false ['1', '0', '0'] [] from rfl, decimalValue,
    show digitsToNat ['1', '0', '0'] = 100 from by decide]
  norm_num [digitsToNat]

theorem parseNum_200 : parseNum "200" = 200 := by
  rw [show parseNum "200" = decimalValue false ['2', '0', '0'] [] from rfl, decimalValue,
    show digitsToNat ['2', '0', '0'] = 200 from by decide]
  norm_num [digitsToNat]

theorem parseNum_1000 : parseNum "1000" = 1000 := by
  rw [show parseNum "1000" = decimalValue false ['1', '0', '0', '0'] [] from rfl, decimalValue,
    show digitsToNat ['1', '0', '0', '0'] = 1000 from by decide]
  norm_num [digitsToNat]

theorem parseNum_2_5 : parseNum "2.5" = 5 / 2 := by
  rw [show parseNum "2.5" = decimalValue false ['2'] ['5'] from rfl, decimalValue,
    show digitsToNat ['2'] = 2 from by decide,
    show digitsToNat ['5'] = 5 from by decide]
  norm_num

/-- C1: for every assignment of the eight earnings inputs (blank or
non-numeric fields taken as 0), `calculateValues` produces
gross = total + tips + extras, expenses = fuel + other,
net = gross − expenses, each rate with a positive denominator equals
the derived value divided by that denominator, and the concrete example
(total 1000, tips 50, fuel 200, trips 10, km 100, hours 5) yields
gross 1050, net 850, net/km 8.5, net/trip 85, net/hour 170. -/
theorem earnings_calculator_correct (fd : EarningsForm) :
    (calculateValues fd).grossEarnings =
        parseNum fd.totalEarnings + parseNum fd.tips + parseNum fd.extras ∧
    (calculateValues fd).totalExpenses =
        parseNum fd.fuelCost + parseNum fd.otherExpenses ∧
    (calculateValues fd).netEarnings =
        (calculateValues fd).grossEarnings - (calculateValues fd).totalExpenses ∧
    (0 < parseNum fd.kilometersDriver →
      (calculateValues fd).grossPerKm =
          (calculateValues fd).grossEarnings / parseNum fd.kilometersDriver ∧
      (calculateValues fd).netPerKm =
          (calculateValues fd).netEarnings / parseNum fd.kilometersDriver) ∧
    (0 < parseNum fd.hoursWorked →
      (calculateValues fd).grossPerHour =
          (calculateValues fd).grossEarnings / parseNum fd.hoursWorked ∧
      (calculateValues fd).netPerHour =
          (calculateValues fd).netEarnings / parseNum fd.hoursWorked) ∧
    (0 < parseNum fd.tripsCompleted →
      (calculateValues fd).grossPerTrip =
          (calculateValues fd).grossEarnings / parseNum fd.tripsCompleted ∧
      (calculateValues fd).netPerTrip =
          (calculateValues fd).netEarnings / parseNum fd.tripsCompleted) ∧
    calculateValues exampleForm =
      { grossEarnings := 1050, grossPerKm := 21/2, grossPerHour := 210,
        grossPerTrip := 105, totalExpenses := 200, netEarnings := 850,
        netPerKm := 17/2, netPerHour := 170, netPerTrip := 85 } := by
  refine ⟨rfl, rfl, rfl, ?_, ?_, ?_, ?_⟩
  · intro h
    constructor <;> simp only [calculateValues, if_pos h]
  · intro h
    constructor <;> simp only [calculateValues, if_pos h]
  · intro h
    constructor <;> simp only [calculateValues, if_pos h]
  · simp only [calculateValues, exampleForm, parseNum_blank, parseNum_5,
      parseNum_10, parseNum_50, parseNum_100, parseNum_200, parseNum_1000,
      Calculations.mk.injEq]
    norm_num

/-- Witness for C1: at the example form the kilometre denominator 100 is
positive and the net-per-km rate equals 850 / 100 = 8.5. -/
theorem earnings_calculator_correct_witness :
    (0 : ℚ) < parseNum exampleForm.kilometersDriver ∧
    (calculateValues exampleForm).netPerKm =
      (calculateValues exampleForm).netEarnings /
        parseNum exampleForm.kilometersDriver :=
  have h : (0 : ℚ) < parseNum exampleForm.kilometersDriver := by
    rw [show exampleForm.kilometersDriver = "100" from rfl, parseNum_100]
    norm_num
  ⟨h, ((earnings_calculator_correct exampleForm).2.2.2.1 h).2⟩

theorem parseFloatJs_750 : parseFloatJs "750" = some 750 := by
  rw [show parseFloatJs "750" = some (decimalValue false ['7', '5', '0'] []) from rfl,
    decimalValue, show digitsToNat ['7', '5', '0'] = 750 from by decide]
  norm_num [digitsToNat]

theorem parseFloatJs_5000 : parseFloatJs "5000" = some 5000 := by
  rw [show parseFloatJs "5000" = some (decimalValue false ['5', '0', '0', '0'] []) from rfl,
    decimalValue, show digitsToNat ['5', '0', '0', '0'] = 5000 from by decide]
  norm_num [digitsToNat]

/-- C2: the tier computed from a finite percent difference `d` is
exactly: `d ≥ 10` profitable (`rentable`), `−10 ≤ d < 10` marginal
(`poco_rentable`), `d < −10` unprofitable (`no_rentable`).  The
classification is a function of the difference alone by construction
(`classifyDiff`). -/
theorem trip_classification_tiers (d : ℚ) :
    (10 ≤ d → classifyDiff (.num d) = .rentable) ∧
    (-10 ≤ d → d < 10 → classifyDiff (.num d) = .poco_rentable) ∧
    (d < -10 → classifyDiff (.num d) = .no_rentable) := by
  refine ⟨fun h => ?_, fun h1 h2 => ?_, fun h => ?_⟩
  · simp [classifyDiff, jsGe, h]
  · have h3 : ¬ (10 ≤ d) := by linarith
    simp [classifyDiff, jsGe, h1, h3]
  · have h1 : ¬ (10 ≤ d) := by linarith
    have h2 : ¬ (-10 ≤ d) := by linarith
    simp [classifyDiff, jsGe, h1, h2]

/-- Witness for C2: a difference of 0 lies in the marginal band and is
classified `poco_rentable`. -/
theorem trip_classification_tiers_witness :
    (-10 : ℚ) ≤ 0 ∧ (0 : ℚ) < 10 ∧
    classifyDiff (.num 0) = .poco_rentable :=
  ⟨by norm_num, by norm_num,
    (trip_classification_tiers 0).2.1 (by norm_num) (by norm_num)⟩

/-- Counterexample to C3: a percent difference of exactly +10 is
classified `rentable` (profitable), not `poco_rentable` (marginal),
because the first branch of the chain tests `difference >= 10`. -/
theorem boundary_plus_ten_counterexample :
    classifyDiff (JsVal.num 10) = Profitability.rentable ∧
    Profitability.rentable ≠ Profitability.poco_rentable := by
  constructor
  · simp [classifyDiff, jsGe]
  · decide

/-- C3 amended: the boundary is inclusive toward "marginal" only at
−10; at +10 the classification is "profitable" (the `>= 10` test wins),
and at exactly −10 it is "marginal". -/
theorem boundary_classification :
    classifyDiff (JsVal.num 10) = Profitability.rentable ∧
    classifyDiff (JsVal.num (-10)) = Profitability.poco_rentable := by
  constructor
  · simp [classifyDiff, jsGe]
  · have h : ¬ ((10 : ℚ) ≤ -10) := by norm_num
    simp [classifyDiff, jsGe, h]

/-- Counterexample to C4: the trip calculator's `actual_price_per_km`
is an unguarded JS division; with a valid positive trip price (5000), a
valid desired price (750) and a routing response whose first route has
distance 0 metres, the computed rate is `Infinity`, not 0 — and the
calculator still produces an analysis (classified `rentable`, since
`Infinity >= 10`). -/
theorem trip_rate_zero_denominator_counterexample :
    calculateProfitability (some (0, 0)) (some (0, 0)) "750" "5000" (.ok [0]) =
      .mkResult { distance := 0, actualPricePerKm := .inf, difference := .inf,
                  profitability := .rentable } ∧
    JsVal.inf ≠ JsVal.num 0 := by
  constructor
  · simp only [calculateProfitability, parseFloatJs_750, parseFloatJs_5000]
    norm_num
    simp [analyzeRoute, jsDiv, jsSub, jsMul, classifyDiff, jsGe]
  · simp

/-- C4 amended: in the earnings calculator every rate whose denominator
is ≤ 0 evaluates to 0 (and all earnings arithmetic is finite by
construction); in the trip calculator `actual_price_per_km` is
unguarded: for a route distance > 0 it is the finite quotient
`tripPrice / (distance/1000)`, but for distance 0 and a positive trip
price it evaluates to `Infinity`, not 0. -/
theorem rate_denominator_guards (fd : EarningsForm) (tp dp d : ℚ) :
    (parseNum fd.kilometersDriver ≤ 0 →
      (calculateValues fd).grossPerKm = 0 ∧ (calculateValues fd).netPerKm = 0) ∧
    (parseNum fd.hoursWorked ≤ 0 →
      (calculateValues fd).grossPerHour = 0 ∧ (calculateValues fd).netPerHour = 0) ∧
    (parseNum fd.tripsCompleted ≤ 0 →
      (calculateValues fd).grossPerTrip = 0 ∧ (calculateValues fd).netPerTrip = 0) ∧
    (0 < d →
      (analyzeRoute tp dp d).actualPricePerKm = .num (tp / (d / 1000))) ∧
    (0 < tp → d = 0 →
      (analyzeRoute tp dp d).actualPricePerKm = .inf) := by
  refine ⟨fun h => ?_, fun h => ?_, fun h => ?_, fun h => ?_, fun htp hd => ?_⟩
  · constructor <;> simp only [calculateValues, if_neg (not_lt.2 h)]
  · constructor <;> simp only [calculateValues, if_neg (not_lt.2 h)]
  · constructor <;> simp only [calculateValues, if_neg (not_lt.2 h)]
  · have hne : d / 1000 ≠ 0 := by positivity
    simp [analyzeRoute, jsDiv, hne]
  · subst hd
    have h0 : (0 : ℚ) / 1000 = 0 := by norm_num
    have hne : tp ≠ 0 := ne_of_gt htp
    simp [analyzeRoute, jsDiv, h0, hne, htp]

/-- Witness for C4 (amended): with all-blank earnings inputs the km
denominator is 0 and the gross-per-km rate is 0; with trip price 5000
and route distance 0 the actual price per km is `Infinity`. -/
theorem rate_denominator_guards_witness :
    (calculateValues ⟨"", "", "", "", "", "", "", ""⟩).grossPerKm = 0 ∧
    (analyzeRoute 5000 750 0).actualPricePerKm = JsVal.inf :=
  ⟨((rate_denominator_guards ⟨"", "", "", "", "", "", "", ""⟩ 5000 750 0).1
      (le_of_eq parseNum_blank)).1,
    (rate_denominator_guards ⟨"", "", "", "", "", "", "", ""⟩ 5000 750 0).2.2.2.2
      (by norm_num) rfl⟩

/-- C9: the trip-profitability calculation fails fast with a validation
error whenever a coordinate pair is missing or a price field is blank,
non-numeric, or non-positive — the outcome is then the same for every
routing response, i.e. it is decided before any network call and
without throwing (the embedding is a total function); and when the
routing lookup fails or returns an empty route list, the outcome is an
error constructor carrying no analysis, so the analysis state is never
updated with a partial result. -/
theorem trip_error_handling (oc dc : Option (ℚ × ℚ)) (dps tps : String)
    (resp : RouteResponse) :
    ((oc = none ∨ dc = none) →
      calculateProfitability oc dc dps tps resp = .coordsError) ∧
    (oc ≠ none → dc ≠ none → (dps = "" ∨ tps = "") →
      calculateProfitability oc dc dps tps resp = .missingPriceError) ∧
    (oc ≠ none → dc ≠ none → dps ≠ "" → tps ≠ "" →
      (parseFloatJs tps = none ∨ parseFloatJs dps = none) →
      calculateProfitability oc dc dps tps resp = .invalidPriceError) ∧
    (∀ tp dp : ℚ, oc ≠ none → dc ≠ none → dps ≠ "" → tps ≠ "" →
      parseFloatJs tps = some tp → parseFloatJs dps = some dp →
      (tp ≤ 0 ∨ dp ≤ 0) →
      calculateProfitability oc dc dps tps resp = .invalidPriceError) ∧
    (∀ tp dp : ℚ, oc ≠ none → dc ≠ none → dps ≠ "" → tps ≠ "" →
      parseFloatJs tps = some tp → parseFloatJs dps = some dp →
      0 < tp → 0 < dp →
      (resp = .netFail →
        calculateProfitability oc dc dps tps resp = .networkError) ∧
      (resp = .ok [] →
        calculateProfitability oc dc dps tps resp = .noRouteError)) := by
  refine ⟨fun h => ?_, fun h1 h2 h3 => ?_, fun h1 h2 h3 h4 h5 => ?_,
    fun tp dp h1 h2 h3 h4 hp hq h5 => ?_, fun tp dp h1 h2 h3 h4 hp hq h5 h6 => ?_⟩
  · rcases h with h | h <;> simp [calculateProfitability, h]
  · simp [calculateProfitability, h1, h2, h3]
  · rcases h5 with h5 | h5
    · simp [calculateProfitability, h1, h2, h3, h4, h5]
    · rcases hv : parseFloatJs tps with _ | v <;>
        simp [calculateProfitability, h1, h2, h3, h4, h5, hv]
  · have hor : ¬ (0 < tp ∧ 0 < dp) := by
      rcases h5 with h5 | h5
      · exact fun hc => absurd hc.1 (not_lt.2 h5)
      · exact fun hc => absurd hc.2 (not_lt.2 h5)
    simp only [calculateProfitability, hp, hq]
    simp [h1, h2, h3, h4]
    rcases h5 with h5 | h5
    · intro hc; exact absurd hc (not_lt.2 h5)
    · intro hc hc2; exact absurd hc2 (not_lt.2 h5)
  · constructor <;> intro hr <;> subst hr <;>
      simp [calculateProfitability, hp, hq, h1, h2, h3, h4,
        not_le.2 h5, not_le.2 h6]

/-- Witness for C9: with both coordinate pairs selected, prices 750 and
5000, and a failed routing lookup, the outcome is the network-error
notification and no analysis. -/
theorem trip_error_handling_witness :
    calculateProfitability (some (0, 0)) (some (1, 1)) "750" "5000"
      .netFail = .networkError :=
  ((trip_error_handling (some (0, 0)) (some (1, 1)) "750" "5000"
      .netFail).2.2.2.2 5000 750 (by simp) (by simp) (by decide) (by decide)
      parseFloatJs_5000 parseFloatJs_750 (by norm_num) (by norm_num)).1 rfl

/-- C5: `calculateNextService` is a pure function of (type, mileage,
date) that returns the empty result for a type outside the enumerated
set, only a date (the reference date advanced by the type's year
count) for a years-rule type, only `mileage + interval` for a km-rule
type, and always populates exactly the field matching the rule kind. -/
theorem next_service_computation (t : String) (m : ℚ) (d : CalDate) :
    ((∀ s ∈ SERVICE_TYPES, s.key ≠ t) → calculateNextService t m d = {}) ∧
    (∀ s, SERVICE_TYPES.find? (fun x => x.key == t) = some s →
      (s.rule = .years →
        calculateNextService t m d =
          { next_service_date :=
              some (setFullYearJs d (d.year + s.value)),
            next_service_mileage := none }) ∧
      (s.rule = .km →
        calculateNextService t m d =
          { next_service_date := none,
            next_service_mileage := some (m + (s.value : ℚ)) }) ∧
      (calculateNextService t m d).next_service_date.isSome =
        (s.rule == .years) ∧
      (calculateNextService t m d).next_service_mileage.isSome =
        (s.rule == .km)) := by
  constructor
  · intro h
    have hf : SERVICE_TYPES.find? (fun x => x.key == t) = none := by
      rw [List.find?_eq_none]
      intro x hx
      simpa using h x hx
    simp [calculateNextService, hf]
  · intro s hs
    refine ⟨fun hr => ?_, fun hr => ?_, ?_, ?_⟩
    · simp [calculateNextService, hs, hr]
    · simp [calculateNextService, hs, hr]
    · rcases hr : s.rule <;> simp [calculateNextService, hs, hr]
    · rcases hr : s.rule <;> simp [calculateNextService, hs, hr]

/-- Witness for C5: an oil change at mileage 50000 yields only
`next_service_mileage = 60000`, and the lookup of an unknown type
yields the empty result. -/
theorem next_service_computation_witness :
    calculateNextService "oil_change" 50000 ⟨2024, 1, 15⟩ =
      { next_service_date := none, next_service_mileage := some 60000 } ∧
    calculateNextService "unknown_type" 50000 ⟨2024, 1, 15⟩ = {} := by
  constructor
  · have hf : SERVICE_TYPES.find? (fun x => x.key == "oil_change") =
        some ⟨"oil_change", .km, 10000⟩ := by decide
    have h := ((next_service_computation "oil_change" 50000 ⟨2024, 1, 15⟩).2
      ⟨"oil_change", .km, 10000⟩ hf).2.1 rfl
    rw [h]
    simp only [NextService.mk.injEq, Option.some.injEq]
    norm_num
  · exact (next_service_computation "unknown_type" 50000 ⟨2024, 1, 15⟩).1
      (by decide)

/-- C6: for a persisted record with only a next due date, the due-soon
flag holds iff the date is at most 30 days from today; for a record
with only a (nonzero) next due mileage and a supplied odometer reading
`c`, it holds iff `c ≥ next − 1000`; and the oil-change example record
(mileage 50000 ⇒ next 60000) queried at reading 59200 is due. -/
theorem service_due_soon (todayMs c : ℚ) (r : ServiceDueRecord) :
    (∀ nd, r.next_service_date = some nd → r.next_service_mileage = none →
      (isServiceDue todayMs (some c) r = true ↔
        daysUntilService todayMs nd ≤ 30)) ∧
    (∀ nm, r.next_service_date = none → r.next_service_mileage = some nm →
      nm ≠ 0 →
      (isServiceDue todayMs (some c) r = true ↔ nm - 1000 ≤ c)) ∧
    (calculateNextService "oil_change" 50000 ⟨2024, 1, 15⟩).next_service_mileage
      = some 60000 ∧
    isServiceDue todayMs (some 59200) ⟨none, some 60000⟩ = true := by
  refine ⟨fun nd h1 _ => ?_, fun nm h1 h2 h3 => ?_, ?_, ?_⟩
  · simp [isServiceDue, h1]
  · simp [isServiceDue, h1, h2, h3]
  · have hf : SERVICE_TYPES.find? (fun x => x.key == "oil_change") =
        some ⟨"oil_change", .km, 10000⟩ := by decide
    simp only [calculateNextService, hf]
    norm_num
  · have h : (60000 : ℚ) ≠ 0 := by norm_num
    simp only [isServiceDue, if_pos h, decide_eq_true_eq]
    norm_num

/-- Witness for C6: the mileage branch at the example record — next due
at 60000, reading 59200, which is within 1000 km. -/
theorem service_due_soon_witness :
    isServiceDue 0 (some 59200) ⟨none, some 60000⟩ = true :=
  ((service_due_soon 0 59200 ⟨none, some 60000⟩).2.1 60000 rfl rfl
    (by norm_num)).mpr (by norm_num)

theorem le_maxId {db : List ServiceRow} {x : ServiceRow} (hx : x ∈ db) :
    x.id ≤ maxId db := by
  induction db with
  | nil => cases hx
  | cons y t ih =>
      rcases List.mem_cons.mp hx with hy | ht
      · subst hy
        exact le_max_left _ _
      · exact le_trans (ih ht) (le_max_right _ _)

theorem eq_of_mem_of_id_eq {db : List ServiceRow} (hids : NodupIds db)
    {x r : ServiceRow} (hx : x ∈ db) (hr : r ∈ db) (h : x.id = r.id) :
    x = r := by
  by_contra hne
  have hp : db.Pairwise (fun a b => a.id ≠ b.id) := by
    simpa [NodupIds, List.Nodup, List.pairwise_map] using hids
  have hsym : Symmetric (fun (a b : ServiceRow) => a.id ≠ b.id) :=
    fun _ _ hab => hab.symm
  exact (hp.forall hsym hx hr hne) h

theorem applyServiceData_id (sd : ServiceData) (r : ServiceRow) :
    (applyServiceData sd r).id = r.id := rfl

/-- C8 amended: when the existence-select succeeds, one submission
step preserves the at-most-one-record-per-(user, type) invariant (and
key distinctness): a type that already has a row is updated in place
(same length), a type with no row gets exactly one fresh appended row.
When the select fails, its error is silently discarded and the step
takes the insert branch unconditionally, appending a row whether or
not the pair already exists. -/
theorem service_save_unique_invariant (db : List ServiceRow)
    (sd : ServiceData) (hids : NodupIds db) (huniq : UniquePerUserType db) :
    UniquePerUserType (saveServiceType db sd .ok) ∧
    NodupIds (saveServiceType db sd .ok) ∧
    (∀ r, db.find? (fun x =>
        x.user_id == sd.user_id && x.service_type == sd.service_type) =
          some r →
      saveServiceType db sd .ok =
        db.map (fun x => if x.id = r.id then applyServiceData sd x else x) ∧
      (saveServiceType db sd .ok).length = db.length) ∧
    (db.find? (fun x =>
        x.user_id == sd.user_id && x.service_type == sd.service_type) =
          none →
      saveServiceType db sd .ok = db ++ [newServiceRow (maxId db + 1) sd]) ∧
    saveServiceType db sd .failed =
      db ++ [newServiceRow (maxId db + 1) sd] := by
  rcases hf : db.find? (fun x =>
      x.user_id == sd.user_id && x.service_type == sd.service_type) with _ | r
  · -- no existing row: insert
    have hnone : ∀ x ∈ db,
        ¬ (x.user_id = sd.user_id ∧ x.service_type = sd.service_type) := by
      intro x hx
      have := List.find?_eq_none.mp hf x hx
      simpa using this
    refine ⟨?_, ?_, ?_, ?_, rfl⟩
    · unfold saveServiceType
      rw [hf]
      rw [UniquePerUserType, List.pairwise_append]
      refine ⟨huniq, List.pairwise_singleton _ _, ?_⟩
      intro a ha b hb
      have hb' : b = newServiceRow (maxId db + 1) sd := by simpa using hb
      subst hb'
      intro hc
      exact hnone a ha ⟨hc.1, hc.2⟩
    · unfold saveServiceType
      rw [hf]
      rw [NodupIds, List.map_append, List.nodup_append]
      refine ⟨hids, by simp, ?_⟩
      intro i hi
      simp only [List.map_cons, List.map_nil, List.mem_singleton,
        newServiceRow] at *
      intro heq
      rcases List.mem_map.mp hi with ⟨x, hx, hxid⟩
      have := le_maxId hx
      omega
    · intro r hr
      rw [hr] at hf
      cases hf
    · intro _
      unfold saveServiceType
      rw [hf]
  · -- existing row: update in place
    have hrmem : r ∈ db := List.mem_of_find?_eq_some hf
    have hrprop : r.user_id = sd.user_id ∧ r.service_type = sd.service_type := by
      have := List.find?_some hf
      simpa using this
    have hpair : ∀ x ∈ db,
        ((if x.id = r.id then applyServiceData sd x else x).user_id = x.user_id ∧
         (if x.id = r.id then applyServiceData sd x else x).service_type =
           x.service_type) := by
      intro x hx
      by_cases hid : x.id = r.id
      · have hxr : x = r := eq_of_mem_of_id_eq hids hx hrmem hid
        subst hxr
        simp [hid, applyServiceData, hrprop.1, hrprop.2]
      · simp [hid]
    refine ⟨?_, ?_, ?_, ?_, rfl⟩
    · unfold saveServiceType
      rw [hf]
      rw [UniquePerUserType, List.pairwise_map]
      refine huniq.imp_of_mem ?_
      intro a b ha hb hab hc
      refine hab ⟨?_, ?_⟩
      · rw [← (hpair a ha).1, ← (hpair b hb).1]
        exact hc.1
      · rw [← (hpair a ha).2, ← (hpair b hb).2]
        exact hc.2
    · unfold saveServiceType
      rw [hf]
      have hmap : (db.map (fun x =>
          if x.id = r.id then applyServiceData sd x else x)).map (·.id) =
            db.map (·.id) := by
        rw [List.map_map]
        refine List.map_congr_left ?_
        intro x _
        by_cases hid : x.id = r.id <;> simp [hid, applyServiceData_id]
      rw [NodupIds, hmap]
      exact hids
    · intro r2 hr2
      rw [hr2] at hf
      cases hf
      constructor
      · unfold saveServiceType
        rw [hr2]
      · unfold saveServiceType
        rw [hr2, List.length_map]
    · intro hn
      rw [hn] at hf
      cases hf

/-- Witness for C8 (amended): starting from an empty table, saving an
oil change with a succeeding select keeps the invariant and appends
exactly one row with id 1. -/
theorem service_save_unique_invariant_witness :
    UniquePerUserType (saveServiceType []
      (serviceDataFor "u" "oil_change" 50000 ⟨2024, 1, 15⟩) .ok) ∧
    saveServiceType [] (serviceDataFor "u" "oil_change" 50000 ⟨2024, 1, 15⟩)
        .ok =
      [newServiceRow 1 (serviceDataFor "u" "oil_change" 50000 ⟨2024, 1, 15⟩)] := by
  have h := service_save_unique_invariant []
    (serviceDataFor "u" "oil_change" 50000 ⟨2024, 1, 15⟩)
    (by simp [NodupIds]) (by simp [UniquePerUserType])
  refine ⟨h.1, ?_⟩
  have h2 := h.2.2.2.1 rfl
  simpa [maxId] using h2

/-- Counterexample to C8: the existence-select's error is discarded
(`const { data: existingService } = await supabase…` checks no error),
so a failed select leaves `existingService` null and the step inserts
even though a row for ("u", "oil_change") already exists — producing
two rows with the same (user, service_type) pair. -/
theorem select_failure_duplicate_counterexample :
    saveServiceType
        [newServiceRow 1 (serviceDataFor "u" "oil_change" 50000 ⟨2024, 1, 15⟩)]
        (serviceDataFor "u" "oil_change" 50000 ⟨2024, 1, 15⟩) .failed =
      [newServiceRow 1 (serviceDataFor "u" "oil_change" 50000 ⟨2024, 1, 15⟩),
       newServiceRow 2 (serviceDataFor "u" "oil_change" 50000 ⟨2024, 1, 15⟩)] ∧
    ¬ UniquePerUserType
      [newServiceRow 1 (serviceDataFor "u" "oil_change" 50000 ⟨2024, 1, 15⟩),
       newServiceRow 2 (serviceDataFor "u" "oil_change" 50000 ⟨2024, 1, 15⟩)] := by
  refine ⟨rfl, ?_⟩
  rw [UniquePerUserType, List.pairwise_cons]
  intro h
  exact h.1 _ (List.mem_cons_self _ _) ⟨rfl, rfl⟩

theorem runServiceLoop_fail (uid : String) (m : ℚ) (date : CalDate) :
    ∀ (l : List String) (db : List ServiceRow) (j k : ℕ), j ≤ k →
      k - j < l.length →
      runServiceLoop uid m date (some k) db l j =
        (foldSaveServices uid m date db (l.take (k - j)), true) := by
  intro l
  induction l with
  | nil =>
      intro db j k _ hlt
      simp at hlt
  | cons t rest ih =>
      intro db j k hle hlt
      by_cases hjk : j = k
      · subst hjk
        simp [runServiceLoop, foldSaveServices]
      · have hjk2 : j < k := lt_of_le_of_ne hle hjk
        have hne : (some k : Option ℕ) ≠ some j := by
          simp [Ne, (Nat.ne_of_gt hjk2)]
        rw [runServiceLoop, if_neg hne]
        have hrec := ih (saveServiceType db (serviceDataFor uid t m date) .ok)
          (j + 1) k hjk2 (by simp at hlt ⊢; omega)
        rw [hrec]
        have hk : k - j = (k - (j + 1)) + 1 := by omega
        rw [hk, List.take_succ_cons]
        simp [foldSaveServices]

/-- C10: saving several selected service types is not atomic — the
services are persisted one per loop iteration; if the `k`-th
persistence call fails, the table holds exactly the sequential saves of
the first `k` selected types (no rollback), the remaining types are
not processed, a single error notification is shown, and the form is
not cleared. -/
theorem services_save_not_atomic (db : List ServiceRow) (uid cm : String)
    (selected : List String) (date : CalDate) (k : ℕ)
    (hcm : cm ≠ "") (hk : k < selected.length) :
    handleSaveServices db (some uid) cm selected date (some k) =
      { db := foldSaveServices uid (parseNum cm) date db (selected.take k),
        notif := .saveFailed, formCleared := false } := by
  have hsel : selected ≠ [] := by
    intro h
    subst h
    simp at hk
  have hcond : ¬ (cm = "" ∨ selected = []) := by
    simp [hcm, hsel]
  have hloop := runServiceLoop_fail uid (parseNum cm) date selected db 0 k
    (Nat.zero_le k) (by simpa using hk)
  simp only [handleSaveServices, if_neg hcond, hloop]
  simp

/-- Witness for C10: two selected services, the second persistence call
fails — only the first (VTV) save is in the table, the notification is
the error one, and the form stays filled. -/
theorem services_save_not_atomic_witness :
    handleSaveServices [] (some "u") "100" ["vtv", "oil_change"]
        ⟨2024, 1, 15⟩ (some 1) =
      { db := foldSaveServices "u" (parseNum "100") ⟨2024, 1, 15⟩ [] ["vtv"],
        notif := .saveFailed, formCleared := false } := by
  have h := services_save_not_atomic [] "u" "100" ["vtv", "oil_change"]
    ⟨2024, 1, 15⟩ 1 (by decide) (by decide)
  simpa using h

theorem parseFloatJs_1 : parseFloatJs "1" = some 1 := by
  rw [show parseFloatJs "1" = some (decimalValue false ['1'] []) from rfl,
    decimalValue, show digitsToNat ['1'] = 1 from by decide]
  norm_num [digitsToNat]

theorem parseFloatJs_2 : parseFloatJs "2" = some 2 := by
  rw [show parseFloatJs "2" = some (decimalValue false ['2'] []) from rfl,
    decimalValue, show digitsToNat ['2'] = 2 from by decide]
  norm_num [digitsToNat]

theorem parseFloatJs_10 : parseFloatJs "10" = some 10 := by
  rw [show parseFloatJs "10" = some (decimalValue false ['1', '0'] []) from rfl,
    decimalValue, show digitsToNat ['1', '0'] = 10 from by decide]
  norm_num [digitsToNat]

theorem parseFloatJs_2_5 : parseFloatJs "2.5" = some (5 / 2) := by
  rw [show parseFloatJs "2.5" = some (decimalValue false ['2'] ['5']) from rfl,
    decimalValue, show digitsToNat ['2'] = 2 from by decide,
    show digitsToNat ['5'] = 5 from by decide]
  norm_num

theorem parseNum_2 : parseNum "2" = 2 := by
  rw [parseNum, parseFloatJs_2]
  rfl

theorem parseIntJs_2_5 : parseIntJs "2.5" = some 2 := by decide

theorem parseIntJs_2 : parseIntJs "2" = some 2 := by decide

/-- Counterexample to C7: the trips input "2.5" passes the
required-field check, is persisted as `trips_completed = 2` (via
`parseInt`), yet the persisted `gross_per_trip` is `10 / 2.5 = 4`
(computed from the `parseFloat` value), which differs from
`gross_earnings / trips_completed = 10 / 2 = 5`. -/
theorem persisted_trip_rate_counterexample :
    buildEarningsData ⟨"10", "2.5", "1", "1", "", "", "", ""⟩ =
      some { total_earnings := some 10, trips_completed := some 2,
             kilometers_driven := some 1, hours_worked := some 1,
             tips := 0, extras := 0, fuel_cost := 0, other_expenses := 0,
             gross_earnings := 10, gross_per_km := 10, gross_per_hour := 10,
             gross_per_trip := 4, total_expenses := 0, net_earnings := 10,
             net_per_km := 10, net_per_hour := 10, net_per_trip := 4 } ∧
    (4 : ℚ) ≠ 10 / ((2 : ℤ) : ℚ) := by
  constructor
  · rw [buildEarningsData, if_neg (by decide)]
    simp only [calculateValues, parseFloatJs_10, parseFloatJs_1,
      parseFloatJs_2_5, parseIntJs_2_5, parseNum_10, parseNum_1,
      parseNum_2_5, parseNum_blank, Option.some.injEq,
      EarningsRecordRow.mk.injEq]
    norm_num
  · norm_num

/-- C7 amended: for every saved earnings record the persisted per-trip
rates equal the derived values divided by the `parseFloat` value of the
trips input (when that value is positive); this coincides with division
by the persisted `trips_completed` exactly when `parseInt` and
`parseFloat` agree on the input (integer-formed inputs), and can differ
otherwise because `trips_completed` is persisted via `parseInt`. -/
theorem persisted_trip_rates (fd : EarningsForm) (r : EarningsRecordRow)
    (q : ℚ) (hr : buildEarningsData fd = some r)
    (hq : parseFloatJs fd.tripsCompleted = some q) (hpos : 0 < q) :
    r.gross_per_trip = r.gross_earnings / q ∧
    r.net_per_trip = r.net_earnings / q ∧
    (∀ n : ℤ, parseIntJs fd.tripsCompleted = some n → (n : ℚ) = q →
      r.trips_completed = some n ∧
      r.gross_per_trip = r.gross_earnings / (n : ℚ) ∧
      r.net_per_trip = r.net_earnings / (n : ℚ)) := by
  rw [buildEarningsData] at hr
  by_cases hc : (fd.totalEarnings = "" ∨ fd.tripsCompleted = "" ∨
      fd.kilometersDriver = "" ∨ fd.hoursWorked = "")
  · rw [if_pos hc] at hr
    cases hr
  · rw [if_neg hc] at hr
    obtain rfl := Option.some.inj hr
    have hnum : parseNum fd.tripsCompleted = q := by
      rw [parseNum, hq]
      rfl
    have h1 : (calculateValues fd).grossPerTrip =
        (calculateValues fd).grossEarnings / q := by
      simp only [calculateValues, hnum, if_pos hpos]
    have h2 : (calculateValues fd).netPerTrip =
        (calculateValues fd).netEarnings / q := by
      simp only [calculateValues, hnum, if_pos hpos]
    refine ⟨h1, h2, ?_⟩
    intro n hn hnq
    exact ⟨hn, by rw [hnq]; exact h1, by rw [hnq]; exact h2⟩

/-- Witness for C7 (amended): the integer trips input "2" is persisted
as 2 and both per-trip rates equal derived ÷ 2. -/
theorem persisted_trip_rates_witness :
    buildEarningsData integerTripsForm = some integerTripsRow ∧
    integerTripsRow.gross_per_trip = integerTripsRow.gross_earnings / 2 ∧
    integerTripsRow.net_per_trip = integerTripsRow.net_earnings / 2 := by
  have hb : buildEarningsData integerTripsForm = some integerTripsRow := by
    rw [integerTripsForm, buildEarningsData, if_neg (by decide)]
    simp only [calculateValues, parseFloatJs_10, parseFloatJs_1,
      parseFloatJs_2, parseIntJs_2, parseNum_10, parseNum_1, parseNum_2,
      parseNum_blank, Option.some.injEq, EarningsRecordRow.mk.injEq,
      integerTripsRow]
    norm_num
  have h := persisted_trip_rates integerTripsForm integerTripsRow 2 hb
    (by rw [integerTripsForm]; exact parseFloatJs_2) (by norm_num)
  exact ⟨hb, h.1, h.2.1⟩
